import Mathlib

/-!
# Verification of the slotted-ALOHA channel / sender pair

Shallow embedding of the repository's two programs (`channel.cpp`,
`server.cpp`) and their shared wire definition, together with proofs of
the specification's claims about them.

Note on the shared header: the `protocol.h` present in the tree declares
an older three-field header (`sender_id`, `seq_number`, `length`) that
neither `.cpp` file references; both `.cpp` files compile against a
header with `dest_id[6]`, `source_id[6]`, `ether_type`, `payload_type`,
`seq_number`, `payload_length` fields, which is exactly the layout §3 of
the spec describes.  That header file itself is not in the tree, so the
struct, `create_noise_frame` and `is_noise_frame` are modelled from the
spec below; everything else is translated from the `.cpp` sources.

All machine integers are modelled as `Nat` (values are small enough that
no overflow arises in the quantities we reason about); byte values are
`Nat`s intended `< 256`.
-/

namespace Aloha

/-- Modelled from the spec (§3): the frame header the `.cpp` files
compile against, missing from the tree (`src/protocol.h` declares an
older incompatible struct).  Fields in wire order:
`dest_id` (6 bytes), `source_id` (6 bytes), `ether_type` (2 bytes),
`payload_type` (1 byte), `seq_number` (4 bytes), `payload_length`
(4 bytes). -/
structure FrameHeader where
  dest_id : Fin 6 → Nat
  source_id : Fin 6 → Nat
  ether_type : Nat
  payload_type : Nat
  seq_number : Nat
  payload_length : Nat
deriving DecidableEq

/-- `struct Frame { FrameHeader header; char payload[MAX_PAYLOAD_SIZE]; }`.
The payload buffer is modelled as a byte list (of length
`MAX_PAYLOAD_SIZE` in a faithful state, but we keep the length free and
add it as a hypothesis where it matters). -/
structure Frame where
  header : FrameHeader
  payload : List Nat
deriving DecidableEq

/-- `sizeof(FrameHeader)` for the tightly packed 6/6/2/1/4/4 layout. -/
def header_size : Nat := 6 + 6 + 2 + 1 + 4 + 4

/-- `#define MAX_FRAME_SIZE 1500` (protocol.h). -/
def MAX_FRAME_SIZE : Nat := 1500

/-- `#define MAX_PAYLOAD_SIZE (MAX_FRAME_SIZE - HEADER_SIZE)`. -/
def MAX_PAYLOAD_SIZE : Nat := MAX_FRAME_SIZE - header_size

/-- Two-byte host-endian (x86-64: little-endian) serialisation. -/
def bytes2 (x : Nat) : List Nat := [x % 256, x / 256 % 256]

/-- Four-byte host-endian (x86-64: little-endian) serialisation. -/
def bytes4 (x : Nat) : List Nat :=
  [x % 256, x / 256 % 256, x / 2 ^ 16 % 256, x / 2 ^ 24 % 256]

/-- The bytes of the packed header, in wire order. -/
def header_bytes (h : FrameHeader) : List Nat :=
  List.ofFn h.dest_id ++ List.ofFn h.source_id ++ bytes2 h.ether_type ++
    [h.payload_type % 256] ++ bytes4 h.seq_number ++ bytes4 h.payload_length

/-- The bytes a `send(sock, &frame, sizeof(FrameHeader) + payload_length, 0)`
puts on the wire: the packed header followed by the first
`payload_length` bytes of the payload buffer. -/
def wire_bytes (f : Frame) : List Nat :=
  header_bytes f.header ++ f.payload.take f.header.payload_length

/-- Modelled from the spec (§3, §4.2): `is_noise_frame` of the missing
header — a frame is noise iff `payload_type = 0xFF`. -/
def is_noise_frame (f : Frame) : Bool :=
  f.header.payload_type == 0xFF

/-- Modelled from the spec (§3, §4.1): `create_noise_frame` of the
missing header — `payload_type = 0xFF`, `payload_length = 0`; the other
header fields are unconstrained by the spec and are taken as zero, the
payload buffer is zero-filled. -/
def noise_frame : Frame :=
  { header :=
      { dest_id := fun _ => 0
        source_id := fun _ => 0
        ether_type := 0
        payload_type := 0xFF
        seq_number := 0
        payload_length := 0 }
    payload := List.replicate MAX_PAYLOAD_SIZE 0 }

/-! ## Sender-side definitions (`server.cpp`) -/

/-- `set_source_dest_id` (server.cpp): the six source-tag bytes are the
four bytes of `getpid()`, low byte first, then two zero bytes. -/
def source_tag (pid : Nat) : Fin 6 → Nat := fun i =>
  if i = 0 then pid % 256
  else if i = 1 then pid / 256 % 256
  else if i = 2 then pid / 2 ^ 16 % 256
  else if i = 3 then pid / 2 ^ 24 % 256
  else 0

/-- `is_my_source_id` (server.cpp): compares only bytes 0–3 of
`source_id` against the four `getpid()` bytes; bytes 4 and 5 are not
inspected. -/
def is_my_source_id (pid : Nat) (f : Frame) : Bool :=
  f.header.source_id 0 == pid % 256 &&
  f.header.source_id 1 == pid / 256 % 256 &&
  f.header.source_id 2 == pid / 2 ^ 16 % 256 &&
  f.header.source_id 3 == pid / 2 ^ 24 % 256

/-- The ack test of `send_file` (server.cpp) applied to a frame that
arrived within the timeout while `seq` is outstanding:
`!is_noise_frame(response) && response.header.seq_number ==
frame.header.seq_number && is_my_source_id(response)`. -/
def treats_as_ack (pid seq : Nat) (response : Frame) : Bool :=
  !is_noise_frame response &&
  response.header.seq_number == seq &&
  is_my_source_id pid response

/-- A sender-built data-frame header: `seq_number`/`payload_length` set
by `file_to_frames`, `source_id`/`dest_id` by `set_source_dest_id`
(dest bytes 0–3 random, 4–5 zero).  The `ether_type = 0x0800` and
`payload_type = 0x01` values are modelled from the spec (§3, §4.2),
being initialisers of the missing header struct. -/
def mk_data_header (pid : Nat) (dest : Fin 6 → Nat) (seq len : Nat) : FrameHeader :=
  { dest_id := fun i => if i = 4 ∨ i = 5 then 0 else dest i % 256
    source_id := source_tag pid
    ether_type := 0x0800
    payload_type := 0x01
    seq_number := seq
    payload_length := len }

/-- `file_to_frames` (server.cpp), metadata part, with an explicit
iteration bound: each executed iteration reads `min(frame_size,
remaining) ≥ 1` bytes, so `fuel := remaining` bounds the loop; the loop
breaks when `min(frame_size, remaining) = 0`.  Returns the list of
`(seq_number, payload_length)` pairs in construction order. -/
def file_to_frames_go (P : Nat) : Nat → Nat → Nat → List (Nat × Nat)
  | 0, _, _ => []
  | fuel + 1, remaining, i =>
    let len := min P remaining
    if len = 0 then []
    else (i, len) :: file_to_frames_go P fuel (remaining - len) (i + 1)

/-- `file_to_frames(file, file_size, frame_size)` with `N = file_size`,
`P = frame_size`, starting at sequence number 0. -/
def file_to_frames (P N : Nat) : List (Nat × Nat) :=
  file_to_frames_go P N N 0

/-- The backoff upper bound of `send_file` (server.cpp):
`(1 << min(attempts, 10)) - 1`; the drawn slot count `k` is uniform on
`[0, backoff_hi attempts]` (`std::uniform_int_distribution`'s closed
range). -/
def backoff_hi (attempts : Nat) : Nat := (1 <<< min attempts 10) - 1

/-- `backoff_time = backoff_dist(rng) * slot_time` (server.cpp): the
millisecond duration handed to `wait_and_drop_frames`. -/
def backoff_time (k slot_time : Nat) : Nat := k * slot_time

/-- `#define MAX_ATTEMPTS 10` (server.cpp). -/
def MAX_ATTEMPTS : Nat := 10

/-- The per-frame attempt loop of `send_file` (server.cpp):
`for (attempts = 1; attempts <= MAX_ATTEMPTS; attempts++)`, modelled
with `fuel` = number of loop-guard passes remaining
(`MAX_ATTEMPTS - attempts + 1` at entry).  `ack n` tells whether the
receive after the `n`-th transmission passes the ack test.  Returns
(final value of the `attempts` variable, number of `send` calls
executed, `acked`). -/
def attempt_loop (ack : Nat → Bool) : Nat → Nat → Nat × Nat × Bool
  | 0, attempts => (attempts, 0, false)
  | fuel + 1, attempts =>
    if ack attempts then (attempts, 1, true)
    else
      let r := attempt_loop ack fuel (attempts + 1)
      (r.1, r.2.1 + 1, r.2.2)

/-- The outer frame loop of `send_file` (server.cpp): processes frames
`i, i+1, …` while `remaining` frames are left; on an unacked frame sets
`success = false` and stops.  `ack i n` is the ack outcome of attempt
`n` of frame `i`.  Returns `(total_transmissions, max_trans_per_frame,
success, frames entered)`. -/
def send_loop (ack : Nat → Nat → Bool) : Nat → Nat → Nat → Nat → Nat × Nat × Bool × Nat
  | i, 0, total, maxt => (total, maxt, true, i)
  | i, r + 1, total, maxt =>
    let a := (attempt_loop (ack i) MAX_ATTEMPTS 1).1
    let acked := (attempt_loop (ack i) MAX_ATTEMPTS 1).2.2
    if acked then send_loop ack (i + 1) r (total + a) (max maxt a)
    else (total + a, max maxt a, false, i + 1)

/-! ## Channel-side definitions (`channel.cpp`) -/

/-- `struct ServerInfo` (channel.cpp); the address field is irrelevant
to the claims and omitted. -/
structure ServerInfo where
  sockfd : Nat
  frames : Nat
  collisions : Nat
  is_dead : Bool
deriving DecidableEq

/-- What `select`/`recv` deliver for one peer in one slot: whether the
peer's socket was ready, the value `recv` returned (`res`), and the
frame that lands in the shared buffer when `res > 0` bytes were read. -/
structure PeerEvent where
  ready : Bool
  res : Int
  incoming : Frame

/-- The per-slot read loop of `channel_loop` (channel.cpp, the loop over
`servers` after the accept step): skips dead peers and non-ready peers;
a peer whose `recv` returns 0 is marked dead; any other result (positive
or negative) appends the peer's socket to `ready`; only a positive
result overwrites the shared `received_frame` buffer.  Returns the final
buffer contents, the updated peer records (in order), and the `ready`
socket list (in order). -/
def read_phase (buf : Frame) : List (ServerInfo × PeerEvent) → Frame × List ServerInfo × List Nat
  | [] => (buf, [], [])
  | (s, e) :: rest =>
    if s.is_dead then
      let r := read_phase buf rest
      (r.1, s :: r.2.1, r.2.2)
    else if !e.ready then
      let r := read_phase buf rest
      (r.1, s :: r.2.1, r.2.2)
    else if e.res = 0 then
      let r := read_phase buf rest
      (r.1, { s with is_dead := true } :: r.2.1, r.2.2)
    else
      let buf' := if 0 < e.res then e.incoming else buf
      let r := read_phase buf' rest
      (r.1, s :: r.2.1, s.sockfd :: r.2.2)

/-- The broadcast step of `channel_loop` (channel.cpp, the
`if (ready.size() == 1) … else if (ready.size() > 1) …` block).
Given the buffer contents, the `ready` list and the peer records:
* one ready peer — send the buffer, `sizeof(FrameHeader) +
  payload_length` bytes, to every non-dead peer (the sender included)
  and increment the sender's `frames` (via the socket-keyed map);
* two or more — increment `collisions` of every ready peer and send a
  noise frame, `sizeof(noise)` = the whole `Frame` struct =
  `MAX_FRAME_SIZE` bytes, to every non-dead peer;
* none — do nothing.
Returns the updated records and the list of performed sends as
`(destination socket, byte count, frame)` triples. -/
def broadcast_phase (received : Frame) (ready : List Nat) (servers : List ServerInfo) :
    List ServerInfo × List (Nat × Nat × Frame) :=
  match ready with
  | [] => (servers, [])
  | [r0] =>
    (servers.map fun s => if s.sockfd = r0 then { s with frames := s.frames + 1 } else s,
     (servers.filter fun s => !s.is_dead).map fun s =>
       (s.sockfd, header_size + received.header.payload_length, received))
  | _ :: _ :: _ =>
    (servers.map fun s => if s.sockfd ∈ ready then { s with collisions := s.collisions + 1 } else s,
     (servers.filter fun s => !s.is_dead).map fun s =>
       (s.sockfd, MAX_FRAME_SIZE, noise_frame))

/-- One whole slot of `channel_loop` after the accept step: the read
loop over all peers followed by the broadcast decision. -/
def slot_step (buf : Frame) (xs : List (ServerInfo × PeerEvent)) :
    List ServerInfo × List (Nat × Nat × Frame) :=
  broadcast_phase (read_phase buf xs).1 (read_phase buf xs).2.2 (read_phase buf xs).2.1

/-! ## The socket-to-record map and `std::vector` relocation
(`channel.cpp` globals `servers` / `sock_to_server`)

`sock_to_server` stores raw `ServerInfo*` pointers into the
`std::vector servers`; `push_back` reallocates the vector's buffer when
size reaches capacity (libstdc++: capacity 0 → 1 → 2 → 4 → …), which
invalidates every previously stored pointer.  A pointer is modelled as
(allocation generation, index); reallocation bumps the generation, and
dereferencing a pointer of a stale generation is undefined behaviour,
modelled as `none`. -/

/-- A pointer into the vector's element buffer. -/
structure VecPtr where
  gen : Nat
  idx : Nat
deriving DecidableEq

/-- The `std::vector<ServerInfo>` buffer: elements, capacity, and the
allocation generation of the current buffer. -/
structure VecBuf where
  elems : List ServerInfo
  cap : Nat
  gen : Nat

/-- `servers.push_back(s)`: reallocates (doubling the capacity, bumping
the generation) when full; returns the new state and `&servers.back()`,
the pointer the channel stores in `sock_to_server`. -/
def vec_push (v : VecBuf) (s : ServerInfo) : VecBuf × VecPtr :=
  if v.elems.length < v.cap then
    (⟨v.elems ++ [s], v.cap, v.gen⟩, ⟨v.gen, v.elems.length⟩)
  else
    (⟨v.elems ++ [s], max 1 (2 * v.cap), v.gen + 1⟩, ⟨v.gen + 1, v.elems.length⟩)

/-- Dereference a stored `ServerInfo*`: valid only while the pointer's
allocation generation is the buffer's current one. -/
def vec_deref (v : VecBuf) (p : VecPtr) : Option ServerInfo :=
  if p.gen = v.gen then v.elems.get? p.idx else none

/-- The channel state the accept step mutates: the global vector and the
`sock_to_server` map (association list keyed by socket). -/
structure ChState where
  vec : VecBuf
  map : List (Nat × VecPtr)

/-- The accept step of `channel_loop` (channel.cpp):
`servers.push_back({cli_addr, server_sock}); sock_to_server[server_sock]
= &servers.back();`. -/
def accept_peer (st : ChState) (s : ServerInfo) : ChState :=
  let r := vec_push st.vec s
  { vec := r.1, map := (s.sockfd, r.2) :: st.map }

/-- Following `sock_to_server[fd]` to the peer record it designates. -/
def lookup_record (st : ChState) (fd : Nat) : Option ServerInfo :=
  match st.map.lookup fd with
  | some p => vec_deref st.vec p
  | none => none

/-- The empty initial channel state. -/
def ch_init : ChState := ⟨⟨[], 0, 0⟩, []⟩

/-- A sample sender-built frame: pid 9, dest bytes 3, seq 0, payload
length 2, buffer `[10, 20, 30]`. -/
def sample_data_frame : Frame :=
  ⟨mk_data_header 9 (fun _ => 3) 0 2, [10, 20, 30]⟩

/-- A sample alive peer record on socket 5. -/
def sample_server : ServerInfo := ⟨5, 0, 0, false⟩

/-! ## Theorems for the claims -/

/-- **C1.** Every frame on the wire is the fixed-layout packed header —
`dest_id` at offset 0 (6 bytes), `source_id` at 6 (6 bytes),
`ether_type` at 12 (2 bytes, `0x0800` in sender-built frames),
`payload_type` at 14 (1 byte, `0x01` in sender-built data frames),
`seq_number` at 15 (4 bytes), `payload_length` at 19 (4 bytes), all
host-endian — followed by `payload_length` payload bytes, so the
on-wire size is `header_size + payload_length`. -/
theorem C1_wire_format (f : Frame) (hlen : f.header.payload_length ≤ f.payload.length) :
    (wire_bytes f).length = header_size + f.header.payload_length ∧
    (wire_bytes f).take 6 = List.ofFn f.header.dest_id ∧
    ((wire_bytes f).drop 6).take 6 = List.ofFn f.header.source_id ∧
    ((wire_bytes f).drop 12).take 2 = bytes2 f.header.ether_type ∧
    ((wire_bytes f).drop 14).take 1 = [f.header.payload_type % 256] ∧
    ((wire_bytes f).drop 15).take 4 = bytes4 f.header.seq_number ∧
    ((wire_bytes f).drop 19).take 4 = bytes4 f.header.payload_length ∧
    (wire_bytes f).drop 23 = f.payload.take f.header.payload_length ∧
    (∀ pid dest seq len, (mk_data_header pid dest seq len).ether_type = 0x0800 ∧
      (mk_data_header pid dest seq len).payload_type = 0x01) := by
  refine ⟨?_, ?_, ?_, ?_, ?_, ?_, ?_, ?_, ?_⟩
  · simp [wire_bytes, header_bytes, bytes2, bytes4, header_size, List.ofFn_succ,
      Nat.min_eq_left hlen]
    omega
  · simp [wire_bytes, header_bytes, bytes2, bytes4, List.ofFn_succ]
  · simp [wire_bytes, header_bytes, bytes2, bytes4, List.ofFn_succ]
  · simp [wire_bytes, header_bytes, bytes2, bytes4, List.ofFn_succ]
  · simp [wire_bytes, header_bytes, bytes2, bytes4, List.ofFn_succ]
  · simp [wire_bytes, header_bytes, bytes2, bytes4, List.ofFn_succ]
  · simp [wire_bytes, header_bytes, bytes2, bytes4, List.ofFn_succ]
  · simp [wire_bytes, header_bytes, bytes2, bytes4, List.ofFn_succ]
  · intro pid dest seq len
    exact ⟨rfl, rfl⟩

/-- Witness for C1 at a concrete sender-built frame. -/
theorem C1_wire_format_witness :
    (wire_bytes sample_data_frame).length = header_size + 2 :=
  (C1_wire_format sample_data_frame (by decide)).1

/-- **C3, as stated** is false: `is_my_source_id` compares only bytes
0–3 of `source_id`, so the sender acks a frame whose `source_id` differs
from its own 6-byte tag at byte 4. -/
def ack_cex_response : Frame :=
  { header :=
      { dest_id := fun _ => 0
        source_id := fun i => if i = 4 then 7 else 0
        ether_type := 0x0800
        payload_type := 0x01
        seq_number := 0
        payload_length := 0 }
    payload := [] }

/-- **C3 counterexample.** With pid 0 and outstanding seq 0, the frame
`ack_cex_response` (not noise, matching seq, `source_id` bytes 0–3 all
zero but byte 4 equal to 7) is treated as an ack although its
`source_id` is not the sender's 6-byte tag. -/
theorem C3_ack_counterexample :
    treats_as_ack 0 0 ack_cex_response = true ∧
      ack_cex_response.header.source_id ≠ source_tag 0 := by
  constructor
  · decide
  · intro h
    have h4 := congrFun h 4
    simp [ack_cex_response, source_tag] at h4

/-- **C3, amended.** A received-in-time inbound frame is treated as an
ack iff it is not noise (`payload_type ≠ 0xFF`), its `seq_number`
equals the outstanding frame's, and bytes 0–3 of its `source_id` equal
the corresponding bytes of the sender's tag (bytes 4 and 5 are not
compared). -/
theorem C3_ack_discrimination (pid seq : Nat) (response : Frame) :
    treats_as_ack pid seq response = true ↔
      (response.header.payload_type ≠ 0xFF ∧
       response.header.seq_number = seq ∧
       response.header.source_id 0 = pid % 256 ∧
       response.header.source_id 1 = pid / 256 % 256 ∧
       response.header.source_id 2 = pid / 2 ^ 16 % 256 ∧
       response.header.source_id 3 = pid / 2 ^ 24 % 256) := by
  simp [treats_as_ack, is_noise_frame, is_my_source_id, and_assoc]

/-- **C5.** On an unacknowledged attempt `n` the backoff slot count is
drawn uniformly from the closed integer range
`[0, (1 << min(n,10)) − 1] = [0, 2^min(n,10) − 1]` — a set of exactly
`2^min(n,10)` values — and the sender then drains-and-discards inbound
frames for `k · slot_time` milliseconds. -/
theorem C5_backoff (n k S : Nat) :
    backoff_hi n = 2 ^ min n 10 - 1 ∧
    Finset.Icc 0 (backoff_hi n) = Finset.range (2 ^ min n 10) ∧
    backoff_time k S = k * S := by
  have hhi : backoff_hi n = 2 ^ min n 10 - 1 := by
    simp [backoff_hi, Nat.one_shiftLeft]
  refine ⟨hhi, ?_, rfl⟩
  have h1 : backoff_hi n + 1 = 2 ^ min n 10 := by
    rw [hhi]
    exact Nat.succ_pred_eq_of_pos (Nat.pos_pow_of_pos _ (by norm_num))
  rw [← Nat.Ico_succ_right, show (backoff_hi n).succ = 2 ^ min n 10 from h1,
    Finset.range_eq_Ico]

/-- The number of `send` calls the attempt loop performs is bounded by
its remaining iteration budget. -/
theorem attempt_loop_sends_le (ack : Nat → Bool) :
    ∀ fuel attempts, (attempt_loop ack fuel attempts).2.1 ≤ fuel := by
  intro fuel
  induction fuel with
  | zero => intro attempts; simp [attempt_loop]
  | succ n ih =>
    intro attempts
    simp only [attempt_loop]
    split
    · simp
    · show (attempt_loop ack n (attempts + 1)).2.1 + 1 ≤ n + 1
      exact Nat.succ_le_succ (ih (attempts + 1))

/-- **C4.** Every frame is transmitted at most 10 times, and when no
attempt is acked the transfer aborts with the remaining frames never
entered; but on abort the code adds the loop-exit value `attempts = 11`
— not 10 — to `total_transmissions` and `max_trans_per_frame`, although
only 10 `send` calls occurred (evaluated here on a 3-frame run whose
every attempt fails: only frame 0 is entered, 10 sends happen, yet the
reported totals are 11). -/
theorem C4_attempt_cap :
    (∀ ack : Nat → Bool, (attempt_loop ack MAX_ATTEMPTS 1).2.1 ≤ 10) ∧
    attempt_loop (fun _ => false) MAX_ATTEMPTS 1 = (11, 10, false) ∧
    send_loop (fun _ _ => false) 0 3 0 0 = (11, 11, false, 1) := by
  refine ⟨fun ack => attempt_loop_sends_le ack MAX_ATTEMPTS 1, by decide, by decide⟩

/-- Framing an exhausted file produces no further frames. -/
theorem file_to_frames_go_zero (P : Nat) :
    ∀ fuel i, file_to_frames_go P fuel 0 i = [] := by
  intro fuel i
  cases fuel <;> simp [file_to_frames_go]

/-- The sequence numbers produced by the framing loop starting at `i`
are `i, i+1, …` in order. -/
theorem file_to_frames_go_fst (P : Nat) :
    ∀ fuel remaining i,
      (file_to_frames_go P fuel remaining i).map Prod.fst =
        (List.range (file_to_frames_go P fuel remaining i).length).map (· + i) := by
  intro fuel
  induction fuel with
  | zero => intro remaining i; simp [file_to_frames_go]
  | succ n ih =>
    intro remaining i
    simp only [file_to_frames_go]
    split
    · simp
    · simp only [List.map_cons, List.length_cons, ih (remaining - min P remaining) (i + 1),
        List.range_succ_eq_map, List.map_map]
      refine congrArg₂ _ (by omega) (List.map_congr_left ?_)
      intro x _
      simp [Function.comp]
      omega

/-- Entry `j` of the framing loop's output carries sequence number
`i + j` and payload length `min P (remaining − P·j)`. -/
theorem file_to_frames_go_get (P : Nat) :
    ∀ fuel remaining i j, remaining ≤ fuel →
      j < (file_to_frames_go P fuel remaining i).length →
      (file_to_frames_go P fuel remaining i).get? j =
        some (i + j, min P (remaining - P * j)) := by
  intro fuel
  induction fuel with
  | zero => intro remaining i j _ hj; simp [file_to_frames_go] at hj
  | succ n ih =>
    intro remaining i j hrem hj
    simp only [file_to_frames_go] at hj ⊢
    by_cases h0 : min P remaining = 0
    · simp [h0] at hj
    · simp only [h0, if_false] at hj ⊢
      cases j with
      | zero => simp
      | succ k =>
        simp only [List.get?_cons_succ]
        rcases Nat.le_total P remaining with hPr | hrP
        · have hmin : min P remaining = P := Nat.min_eq_left hPr
          have hP : 0 < P := by omega
          have := ih (remaining - min P remaining) (i + 1) k (by omega)
            (by simpa using Nat.lt_of_succ_lt_succ hj)
          rw [this]
          have harith : remaining - min P remaining - P * k = remaining - P * (k + 1) := by
            rw [hmin, Nat.mul_succ]
            omega
          rw [harith]
          refine congrArg _ (congrArg₂ _ (by omega) rfl)
        · have hmin : min P remaining = remaining := Nat.min_eq_right hrP
          rw [hmin, Nat.sub_self, file_to_frames_go_zero] at hj
          simp at hj

/-- With a positive frame size, the framing loop consumes the file
exactly: the payload lengths sum to the remaining byte count. -/
theorem file_to_frames_go_sum (P : Nat) (hP : 0 < P) :
    ∀ fuel remaining i, remaining ≤ fuel →
      ((file_to_frames_go P fuel remaining i).map Prod.snd).sum = remaining := by
  intro fuel
  induction fuel with
  | zero => intro remaining i hrem; simp [file_to_frames_go]; omega
  | succ n ih =>
    intro remaining i hrem
    simp only [file_to_frames_go]
    by_cases h0 : min P remaining = 0
    · have : remaining = 0 := by
        rcases Nat.min_eq_zero_iff.mp h0 with h | h
        · omega
        · exact h
      simp [h0, this]
    · simp only [h0, if_false, List.map_cons, List.sum_cons]
      have hle : min P remaining ≤ remaining := Nat.min_le_right _ _
      rw [ih (remaining - min P remaining) (i + 1) (by omega)]
      omega

/-- **C6.** For every file of `N` bytes framed with payload size
`P ≥ 1`: the sequence numbers are `0, 1, 2, …` in order with no gaps or
duplicates, frame `j` carries `seq_number = j` and `payload_length =
min P (N − P·j)` (the bytes remaining before it), and framing stops
exactly when the remaining byte count reaches zero — the payload
lengths sum to `N`. -/
theorem C6_frame_construction (P N : Nat) (hP : 0 < P) :
    (file_to_frames P N).map Prod.fst = List.range (file_to_frames P N).length ∧
    (∀ j, j < (file_to_frames P N).length →
      (file_to_frames P N).get? j = some (j, min P (N - P * j))) ∧
    ((file_to_frames P N).map Prod.snd).sum = N := by
  refine ⟨?_, ?_, ?_⟩
  · have := file_to_frames_go_fst P N N 0
    simpa [file_to_frames] using this
  · intro j hj
    have := file_to_frames_go_get P N N 0 j le_rfl (by simpa [file_to_frames] using hj)
    simpa [file_to_frames] using this
  · exact file_to_frames_go_sum P hP N N 0 le_rfl

/-- Witness for C6: a 5-byte file framed with `P = 2` gives frames
`(0,2), (1,2), (2,1)`; the third frame carries `seq 2` and the 1
remaining byte. -/
theorem C6_frame_construction_witness :
    (file_to_frames 2 5).get? 2 = some (2, 1) := by
  have := (C6_frame_construction 2 5 (by decide)).2.1 2 (by decide)
  simpa using this

/-- **C9.** A zero-byte file yields an empty frame list, so the
unconditional summary's `frames[0]` access has no element to denote —
the indexing is well-defined only when the frame list is non-empty,
which requires the file to hold at least one byte. -/
theorem C9_empty_file_summary (P : Nat) :
    file_to_frames P 0 = [] ∧
    (file_to_frames P 0).get? 0 = none ∧
    (∀ N, file_to_frames P N ≠ [] → 1 ≤ N) := by
  refine ⟨rfl, rfl, ?_⟩
  intro N h
  cases N with
  | zero => exact absurd rfl h
  | succ n => omega

/-- Witness for C9: with `P = 4` the empty file gives no frames, while
the 7-byte file's non-empty frame list certifies `1 ≤ 7`. -/
theorem C9_empty_file_summary_witness :
    file_to_frames 4 0 = [] ∧ 1 ≤ 7 :=
  ⟨(C9_empty_file_summary 4).1, (C9_empty_file_summary 4).2.2 7 (by decide)⟩

/-- **C2 counterexample.** In a collisional slot (two ready peers) the
channel sends `sizeof(Frame) = MAX_FRAME_SIZE = 1500` bytes of noise to
each non-dead peer — not the header-only size, which is 23. -/
theorem C2_noise_size_counterexample :
    ((broadcast_phase sample_data_frame [1, 2]
        [⟨1, 0, 0, false⟩, ⟨2, 0, 0, false⟩]).2).map (fun t => t.2.1) =
      [MAX_FRAME_SIZE, MAX_FRAME_SIZE] ∧
    MAX_FRAME_SIZE ≠ header_size + noise_frame.header.payload_length := by
  constructor
  · rfl
  · decide

/-- **C2, amended.** In every slot with transmitter set `R`: if
`|R| = 1` the channel sends the received frame's bytes, exactly
`header_size + payload_length` of them, to every non-dead peer (the
sender included) and increments exactly the sender's `frames`; if
`|R| ≥ 2` it sends a noise frame of `sizeof(Frame) = MAX_FRAME_SIZE`
bytes (not the header-only size) to every non-dead peer and increments
`collisions` of exactly the peers in `R`; if `|R| = 0` nothing is sent
and no counter moves. -/
theorem C2_slot_broadcast (received : Frame) (ready : List Nat) (servers : List ServerInfo) :
    (∀ r0, ready = [r0] →
      (broadcast_phase received ready servers).1 =
        servers.map (fun s => if s.sockfd = r0 then { s with frames := s.frames + 1 } else s) ∧
      (broadcast_phase received ready servers).2 =
        (servers.filter fun s => !s.is_dead).map
          (fun s => (s.sockfd, header_size + received.header.payload_length, received))) ∧
    (2 ≤ ready.length →
      (broadcast_phase received ready servers).1 =
        servers.map
          (fun s => if s.sockfd ∈ ready then { s with collisions := s.collisions + 1 } else s) ∧
      (broadcast_phase received ready servers).2 =
        (servers.filter fun s => !s.is_dead).map
          (fun s => (s.sockfd, MAX_FRAME_SIZE, noise_frame))) ∧
    (ready = [] → broadcast_phase received ready servers = (servers, [])) := by
  refine ⟨?_, ?_, ?_⟩
  · rintro r0 rfl
    exact ⟨rfl, rfl⟩
  · intro hlen
    match ready, hlen with
    | r0 :: r1 :: rest, _ => exact ⟨rfl, rfl⟩
  · rintro rfl
    rfl

/-- Witness for C2 at a one-transmitter slot: the single alive peer on
socket 5 is sent the received frame with `header_size + 2` bytes. -/
theorem C2_slot_broadcast_witness :
    (broadcast_phase sample_data_frame [5] [sample_server]).2 =
      [(5, header_size + 2, sample_data_frame)] :=
  ((C2_slot_broadcast sample_data_frame [5] [sample_server]).1 5 rfl).2

/-- **C7.** When the candidate frame of the slot is a data frame
(`payload_type = 0x01`, as sender-built frames are), every frame the
channel broadcasts has `payload_type = 0xFF` when two or more peers
transmitted and `payload_type = 0x01` otherwise — hence always in
`{0x01, 0xFF}`, with `0xFF` exactly in collisional slots — and the
noise frame has `payload_type = 0xFF` and `payload_length = 0`. -/
theorem C7_broadcast_payload_type (received : Frame) (ready : List Nat)
    (servers : List ServerInfo) (hdata : received.header.payload_type = 0x01) :
    (∀ t ∈ (broadcast_phase received ready servers).2,
      t.2.2.header.payload_type = if 2 ≤ ready.length then 0xFF else 0x01) ∧
    (∀ t ∈ (broadcast_phase received ready servers).2,
      t.2.2.header.payload_type = 0x01 ∨ t.2.2.header.payload_type = 0xFF) ∧
    noise_frame.header.payload_type = 0xFF ∧
    noise_frame.header.payload_length = 0 := by
  have hmain : ∀ t ∈ (broadcast_phase received ready servers).2,
      t.2.2.header.payload_type = if 2 ≤ ready.length then 0xFF else 0x01 := by
    intro t ht
    match ready with
    | [] => simp [broadcast_phase] at ht
    | [r0] =>
      simp only [broadcast_phase, List.mem_map] at ht
      obtain ⟨s, _, rfl⟩ := ht
      simpa using hdata
    | r0 :: r1 :: rest =>
      simp only [broadcast_phase, List.mem_map] at ht
      obtain ⟨s, _, rfl⟩ := ht
      simp [noise_frame, List.length_cons]
  refine ⟨hmain, ?_, rfl, rfl⟩
  intro t ht
  rcases hmain t ht with h
  split at h
  · exact Or.inr h
  · exact Or.inl h

/-- Witness for C7: the noise frame broadcast in a collisional slot has
`payload_type = 0xFF`. -/
theorem C7_broadcast_payload_type_witness :
    noise_frame.header.payload_type = 0xFF :=
  (C7_broadcast_payload_type sample_data_frame [] [] rfl).2.2.1

/-- **C8.** The raw `ServerInfo*` that `sock_to_server` stores into the
growing `servers` vector dangles after the vector reallocates: with the
first peer accepted the map resolves its record, but accepting a second
peer (capacity 1 → 2, buffer reallocated) leaves the first peer's map
entry pointing into the freed buffer — it no longer designates any
record — while the second peer's fresh entry works. -/
theorem C8_stale_pointer :
    lookup_record (accept_peer ch_init ⟨1, 0, 0, false⟩) 1 = some ⟨1, 0, 0, false⟩ ∧
    lookup_record (accept_peer (accept_peer ch_init ⟨1, 0, 0, false⟩) ⟨2, 0, 0, false⟩) 1 =
      none ∧
    lookup_record (accept_peer (accept_peer ch_init ⟨1, 0, 0, false⟩) ⟨2, 0, 0, false⟩) 2 =
      some ⟨2, 0, 0, false⟩ :=
  ⟨rfl, rfl, rfl⟩

/-- **C10.** A ready peer whose `recv` returns a negative (error)
result is treated like a successful transmitter: it joins `R`, is not
marked dead, and — when it is `R`'s only member — the channel
broadcasts the frame buffer the failed read never filled (the
pre-slot buffer contents) back to it and increments its `frames`;
a peer is marked dead in the read loop iff it was dead already or its
ready socket read zero bytes. -/
theorem C10_recv_error_counts_as_transmission (buf : Frame) (s : ServerInfo) (e : PeerEvent)
    (halive : s.is_dead = false) (hready : e.ready = true) (herr : e.res < 0) :
    (read_phase buf [(s, e)]).2.2 = [s.sockfd] ∧
    (read_phase buf [(s, e)]).1 = buf ∧
    (read_phase buf [(s, e)]).2.1 = [s] ∧
    (slot_step buf [(s, e)]).2 =
      [(s.sockfd, header_size + buf.header.payload_length, buf)] ∧
    (slot_step buf [(s, e)]).1 = [{ s with frames := s.frames + 1 }] ∧
    (∀ (s2 : ServerInfo) (e2 : PeerEvent),
      (read_phase buf [(s2, e2)]).2.1.map ServerInfo.is_dead =
        [s2.is_dead || (e2.ready && e2.res == 0)]) := by
  have h1 : ¬e.res = 0 := by omega
  have h2 : ¬(0 : Int) < e.res := by omega
  refine ⟨?_, ?_, ?_, ?_, ?_, ?_⟩
  · simp [read_phase, halive, hready, h1, h2]
  · simp [read_phase, halive, hready, h1, h2]
  · simp [read_phase, halive, hready, h1, h2]
  · simp [slot_step, read_phase, broadcast_phase, halive, hready, h1, h2]
  · simp [slot_step, read_phase, broadcast_phase, halive, hready, h1, h2]
  · intro s2 e2
    cases hd : s2.is_dead <;> cases hr : e2.ready <;> by_cases hz : e2.res = 0 <;>
      simp [read_phase, hd, hr, hz]

/-- Witness for C10: a lone alive peer on socket 7 whose `recv` errors
(`res = −1`) still lands in the ready list. -/
theorem C10_recv_error_witness :
    (read_phase sample_data_frame
        [(⟨7, 0, 0, false⟩, ⟨true, -1, sample_data_frame⟩)]).2.2 = [7] :=
  (C10_recv_error_counts_as_transmission sample_data_frame ⟨7, 0, 0, false⟩
    ⟨true, -1, sample_data_frame⟩ rfl rfl (by decide)).1

end Aloha
